import Mathlib

/-!
A shallow embedding of `src/nodes/load.cpp` of the `nodelet_or_node` package.

The program is a supervisor that either runs a nodelet standalone (embedded
mode, when no manager name is given on the command line) or loads it into a
remote nodelet manager via RPC (remote mode), monitors a bond (liveness
lease) with the manager, intercepts SIGINT and the XML-RPC "shutdown" call,
and unloads the nodelet before exiting.

Modelling choices, all taken from the source:
* Side effects (RPC calls, service probes, bond start/break, log lines that
  the spec treats as observable) are recorded as an ordered `List Event`.
* Outcomes of the external world (whether the load RPC succeeds, whether the
  unload service is advertised, ...) are inputs collected in `Env`.
* The concurrent setting of `requestShutdown` by the signal handler or the
  XML-RPC thread, and of the bond-broken flag by the bond's own callbacks,
  is abstracted as a sequence `Env.obs` of `(requestShutdown, bond.isBroken)`
  pairs observed by the iterations of the monitoring loop in `main`.
* `ros::spin()` in embedded mode blocks until ROS is shut down externally and
  then returns, after which `main` returns 0; the blocking period is the
  `Event.spin` entry.
* Machine integers do not occur on the modelled paths; exit codes are `Nat`.
-/

namespace NodeletOrNode

/-- Final fate of a run of `main`: either the process returned with an exit
code, or the run is still inside the monitoring loop / `ros::spin()` after
all supplied observations. -/
inductive Outcome where
  | exited (code : Nat)
  | running
deriving DecidableEq

/-- The `nodelet::NodeletLoad` request filled in by
`NodeletInterface::loadNodelet` (load.cpp lines 126-132). -/
structure NodeletLoadRequest where
  name : String
  type : String
  remap_source_args : List String
  remap_target_args : List String
  my_argv : List String
  bond_id : String
deriving DecidableEq

/-- Observable actions of the program, in the order they happen. -/
inductive Event where
  /-- Models `nodelet.load(nodeName, pkgAndNodelet, noRemap, noArgv)` (line 179). -/
  | standaloneLoad (name type : String)
  /-- Models `ros::spin()` in embedded mode (line 188). -/
  | spin
  /-- copying the parameter subtree (lines 113-116). -/
  | paramCopy (src dst : String)
  /-- Models `client.waitForExistence()` on the load service (line 123). -/
  | waitForService (service : String)
  /-- the single `client.call(srv)` carrying the load request (line 133). -/
  | loadRpc (req : NodeletLoadRequest)
  /-- Models `bond.start()` (line 212). -/
  | bondStart
  /-- Models `ROS_INFO("Bond broken, exiting")` just before `goto shutdown` (line 220). -/
  | logBondBroken
  /-- Models `ros::service::exists(serviceName, printFailure)` probes in
  `unloadNodelet` (lines 69 and 85). -/
  | unloadProbe (service : String) (printFailure : Bool)
  /-- the warning when the unload service is absent (line 72). -/
  | logWarnNoUnloadService (service : String)
  /-- the `client.call(srv)` carrying the unload request (line 82). -/
  | unloadRpc (name : String)
  /-- Models `ROS_FATAL("Failed to unload nodelet ...")` (line 86). -/
  | logFatalUnloadFailed (name : String)
  /-- Models `bond.breakBond()` (line 229). -/
  | bondBreak
  /-- Models `ros::shutdown()` at the `shutdown:` label (line 232). -/
  | rosShutdown
deriving DecidableEq

/-- Responses of the external world consumed by one run, plus the remappings
returned by `ros::names::getRemappings()` and the random hex string produced
by `unique_id::toHexString(unique_id::fromRandom())`. -/
structure Env where
  remappings : List (String × String)
  randomHex : String
  standaloneLoadOk : Bool
  remoteLoadOk : Bool
  unloadServiceExistsBefore : Bool
  unloadCallOk : Bool
  unloadServiceExistsAfter : Bool
  obs : List (Bool × Bool)

/-- Models `NodeletInterface::unloadNodelet` (load.cpp lines 63-91): probe the
unload service; absent ⇒ warn and return false; present ⇒ call it; a failed
call re-probes and logs at fatal severity only if the service still exists;
return false on any failure, true on success. -/
def unloadNodelet (name manager : String) (env : Env) : Bool × List Event :=
  let serviceName := manager ++ "/unload_nodelet"
  if !env.unloadServiceExistsBefore then
    (false, [.unloadProbe serviceName true, .logWarnNoUnloadService serviceName])
  else if !env.unloadCallOk then
    (false, [.unloadProbe serviceName true, .unloadRpc name, .unloadProbe serviceName false] ++
      (if env.unloadServiceExistsAfter then [.logFatalUnloadFailed name] else []))
  else
    (true, [.unloadProbe serviceName true, .unloadRpc name])

/-- The request built by `NodeletInterface::loadNodelet` (lines 97-132): the
remapping pairs are split, in order, into the parallel `remap_source_args`
and `remap_target_args` arrays. -/
def buildLoadRequest (name type : String) (args : List String) (bond_id : String)
    (remappings : List (String × String)) : NodeletLoadRequest :=
  { name := name
    type := type
    remap_source_args := remappings.map Prod.fst
    remap_target_args := remappings.map Prod.snd
    my_argv := args
    bond_id := bond_id }

/-- Models `NodeletInterface::loadNodelet` (lines 94-141): copy the parameter
subtree, wait for the load service, issue the single load RPC; the result is
the RPC outcome. `main` passes its own node name for `name`, which is also
`ros::this_node::getName()` used for the parameter copy. -/
def loadNodelet (name type manager : String) (args : List String) (bond_id : String)
    (env : Env) : Bool × List Event :=
  let req := buildLoadRequest name type args bond_id env.remappings
  (env.remoteLoadOk,
    [.paramCopy name name, .waitForService (manager ++ "/load_nodelet"), .loadRpc req])

/-- How the monitoring loop (lines 216-224) ends. -/
inductive LoopExit where
  /-- Models `while (!requestShutdown)` saw the flag set: fall through to the unload. -/
  | viaShutdownFlag
  /-- Models `bond.isBroken()` returned true: `goto shutdown`. -/
  | viaBondBroken
  /-- the supplied observations ran out with no trigger: still looping. -/
  | ranOut
deriving DecidableEq

/-- The monitoring loop of `main` (lines 216-224). Each iteration reads
`requestShutdown` first and, only when `!bondId.empty()`, consults
`bond.isBroken()`. The second component counts how many times
`bond.isBroken()` was consulted. -/
def monitorLoop (bondActive : Bool) : List (Bool × Bool) → LoopExit × Nat
  | [] => (.ranOut, 0)
  | (flag, broken) :: rest =>
    if flag then (.viaShutdownFlag, 0)
    else if bondActive then
      if broken then (.viaBondBroken, 1)
      else
        let r := monitorLoop bondActive rest
        (r.1, r.2 + 1)
    else monitorLoop bondActive rest

/-- The check `pkgAndNodelet.find('/') != std::string::npos` (line 162),
as membership of the slash character in the string's characters. -/
def hasSlash (s : String) : Bool :=
  s.data.contains '/'

/-- Models `main` (load.cpp lines 147-236), starting after `ros::init` and
`removeROSArgs`: `args` is the argument vector with the program name already
erased (line 154), `nodeName` is `ros::this_node::getName()`. -/
def mainRun (nodeName : String) (args : List String) (env : Env) : Outcome × List Event :=
  match args with
  | [] => (.exited 1, [])
  | pkgAndNodelet :: args1 =>
    if !hasSlash pkgAndNodelet then (.exited 2, [])
    else
      match args1 with
      | [] =>
        if env.standaloneLoadOk then
          (.exited 0, [.standaloneLoad nodeName pkgAndNodelet, .spin])
        else
          (.exited 3, [.standaloneLoad nodeName pkgAndNodelet])
      | manager :: args2 =>
        let p : String × List String :=
          match args2 with
          | [] => (nodeName ++ "_" ++ env.randomHex, [])
          | a :: rest =>
            if a != "--no-bond" then (nodeName ++ "_" ++ env.randomHex, a :: rest)
            else ("", rest)
        let bondId := p.1
        let load := loadNodelet nodeName pkgAndNodelet manager p.2 bondId env
        if !load.1 then (.exited 4, load.2)
        else
          let bondActive := !(bondId == "")
          let evs := load.2 ++ (if bondActive then [Event.bondStart] else [])
          match (monitorLoop bondActive env.obs).1 with
          | .viaShutdownFlag =>
            let unload := unloadNodelet nodeName manager env
            (.exited 0, evs ++ unload.2 ++
              (if bondActive then [Event.bondBreak] else []) ++ [Event.rosShutdown])
          | .viaBondBroken =>
            (.exited 0, evs ++ [Event.logBondBroken, Event.rosShutdown])
          | .ranOut => (.running, evs)

/-- The state touched by the two shutdown triggers: the global
`sig_atomic_t volatile requestShutdown` flag (line 33) together with the
reasons emitted by `ROS_WARN("Shutdown request received. Reason: [%s]", ...)`
(line 51), in emission order. -/
structure LatchState where
  requestShutdown : Bool
  warnLog : List String
deriving DecidableEq

/-- The SIGINT handler (lines 34-37): only `requestShutdown = 1`. -/
def nodeletLoaderSigIntHandler (s : LatchState) : LatchState :=
  { s with requestShutdown := true }

/-- The fragment of `XmlRpc::XmlRpcValue` the program touches. -/
inductive XmlRpcValue where
  | int (n : Int)
  | str (s : String)
  | array (elems : List XmlRpcValue)
  | other

/-- The `std::string` cast used for `params[1]` in `shutdownCallback`
(line 50); on a non-string value the real library raises, which never
happens on the modelled calls. -/
def XmlRpcValue.asString : XmlRpcValue → String
  | .str s => s
  | _ => ""

/-- Models `ros::xmlrpc::responseInt(code, msg, response)`: the triple
`[code, msg, response]` as an XML-RPC array. -/
def responseInt (code : Int) (msg : String) (response : Int) : XmlRpcValue :=
  .array [.int code, .str msg, .int response]

/-- Models `num_params` as computed at lines 45-47: the size when `params` is an
array, 0 otherwise. -/
def numParams : XmlRpcValue → Nat
  | .array es => es.length
  | _ => 0

/-- Models `shutdownCallback` (lines 43-56): when more than one parameter is
present, log the reason found at index 1 and set `requestShutdown`;
in every case answer `responseInt(1, "", 0)`. -/
def shutdownCallback (params : XmlRpcValue) (s : LatchState) :
    LatchState × XmlRpcValue :=
  let num_params := numParams params
  let s' :=
    if 1 < num_params then
      let reason :=
        match params with
        | .array es => (es.getD 1 .other).asString
        | _ => ""
      { requestShutdown := true, warnLog := s.warnLog ++ [reason] }
    else s
  (s', responseInt 1 "" 0)

/-- The two ways the shutdown latch can be triggered. -/
inductive Trigger where
  | sigint
  | remote (params : XmlRpcValue)

/-- Apply a trigger to the latch state. -/
def fire : Trigger → LatchState → LatchState
  | .sigint, s => nodeletLoaderSigIntHandler s
  | .remote p, s => (shutdownCallback p s).1

/-- Whether a trigger actually sets `requestShutdown`: SIGINT always does,
a remote shutdown call only when it carries more than one parameter. -/
def fires : Trigger → Bool
  | .sigint => true
  | .remote p => decide (1 < numParams p)

/-- Whether an event is part of the unload operation (the existence probes
and the unload RPC of `NodeletInterface::unloadNodelet`). -/
def isUnloadAttempt : Event → Bool
  | .unloadProbe _ _ => true
  | .unloadRpc _ => true
  | _ => false

/-- An environment where every external interaction succeeds and the first
monitoring-loop iteration already sees `requestShutdown` set. -/
def envAllOk : Env :=
  { remappings := [], randomHex := "abcd", standaloneLoadOk := true,
    remoteLoadOk := true, unloadServiceExistsBefore := true, unloadCallOk := true,
    unloadServiceExistsAfter := true, obs := [(true, false)] }

/-- An environment where both the standalone load and the load RPC fail. -/
def envLoadFails : Env :=
  { envAllOk with standaloneLoadOk := false, remoteLoadOk := false }

/-- An environment where the bond reports broken on the first loop iteration
while `requestShutdown` stays unset. -/
def envBondBroken : Env :=
  { envAllOk with obs := [(false, true)] }

/-- An environment where the unload service is not advertised. -/
def envUnloadAbsent : Env :=
  { envAllOk with unloadServiceExistsBefore := false }

/-! Helper lemmas shared by several claims. -/

/-- With no bond (`bondId.empty()`), the monitoring loop never consults
`bond.isBroken()` and can never exit through the bond-broken branch. -/
theorem monitorLoop_inactive (obs : List (Bool × Bool)) :
    (monitorLoop false obs).2 = 0 ∧ (monitorLoop false obs).1 ≠ .viaBondBroken := by
  induction obs with
  | nil => simp [monitorLoop]
  | cons o rest ih =>
    obtain ⟨f, b⟩ := o
    by_cases hf : f = true
    · simp [monitorLoop, hf]
    · simp only [Bool.not_eq_true] at hf
      simpa [monitorLoop, hf] using ih

/-- A generated bond id `nodeName + "_" + hex` is never the empty string. -/
theorem generated_bondId_ne_empty (n h : String) : ((n ++ "_" ++ h) == "") = false := by
  simp [String.ext_iff]

/-- C4: the process exit code is determined as: missing module type argument
exits with code 1; module type not a well-formed `ns/Type` pair exits with
code 2; embedded (standalone) load failure exits with code 3; remote load
failure exits with code 4; normal shutdown exits with code 0 (in embedded
mode after `ros::spin()` returns, in remote mode after the shutdown flag
ends the monitoring loop). -/
theorem exit_code_determination (nodeName : String) (env : Env) :
    (mainRun nodeName [] env).1 = .exited 1 ∧
    (∀ pkg rest, hasSlash pkg = false →
      (mainRun nodeName (pkg :: rest) env).1 = .exited 2) ∧
    (∀ pkg, hasSlash pkg = true → env.standaloneLoadOk = false →
      (mainRun nodeName [pkg] env).1 = .exited 3) ∧
    (∀ pkg, hasSlash pkg = true → env.standaloneLoadOk = true →
      (mainRun nodeName [pkg] env).1 = .exited 0) ∧
    (∀ pkg manager rest, hasSlash pkg = true → env.remoteLoadOk = false →
      (mainRun nodeName (pkg :: manager :: rest) env).1 = .exited 4) ∧
    (∀ pkg manager, hasSlash pkg = true → env.remoteLoadOk = true →
      (monitorLoop true env.obs).1 = .viaShutdownFlag →
      (mainRun nodeName [pkg, manager] env).1 = .exited 0) := by
  refine ⟨rfl, ?_, ?_, ?_, ?_, ?_⟩
  · intro pkg rest h
    simp [mainRun, h]
  · intro pkg h1 h2
    simp [mainRun, h1, h2]
  · intro pkg h1 h2
    simp [mainRun, h1, h2]
  · intro pkg manager rest h1 h2
    cases rest with
    | nil => simp [mainRun, loadNodelet, h1, h2]
    | cons a rest1 =>
      by_cases ha : (a == "--no-bond") = true
      · simp [mainRun, loadNodelet, h1, h2, ha]
      · simp only [Bool.not_eq_true] at ha
        simp [mainRun, loadNodelet, h1, h2, ha]
  · intro pkg manager h1 h2 h3
    simp [mainRun, loadNodelet, h1, h2, generated_bondId_ne_empty, h3]

/-- Witness for C4 at concrete inputs: each of the five exit codes is
realized. -/
theorem exit_code_determination_witness :
    (mainRun "nodeA" [] envAllOk).1 = .exited 1 ∧
    (mainRun "nodeA" ["noslash"] envAllOk).1 = .exited 2 ∧
    (mainRun "nodeA" ["pkg/Type"] envLoadFails).1 = .exited 3 ∧
    (mainRun "nodeA" ["pkg/Type"] envAllOk).1 = .exited 0 ∧
    (mainRun "nodeA" ["pkg/Type", "mgr"] envLoadFails).1 = .exited 4 ∧
    (mainRun "nodeA" ["pkg/Type", "mgr"] envAllOk).1 = .exited 0 := by
  have hA := exit_code_determination "nodeA" envAllOk
  have hB := exit_code_determination "nodeA" envLoadFails
  exact ⟨hA.1, hA.2.1 "noslash" [] (by decide),
    hB.2.2.1 "pkg/Type" (by decide) rfl,
    hA.2.2.2.1 "pkg/Type" (by decide) rfl,
    hB.2.2.2.2.1 "pkg/Type" "mgr" [] (by decide) rfl,
    hA.2.2.2.2.2 "pkg/Type" "mgr" (by decide) rfl (by decide)⟩

/-- C5: if the load RPC fails (or returns negative — both surface as
`client.call` returning false), the process exits with code 4 and the unload
operation is never started: no unload-service probe and no unload RPC occur. -/
theorem load_failure_exits_4_without_unload (nodeName pkg manager : String)
    (rest : List String) (env : Env)
    (h1 : hasSlash pkg = true) (h2 : env.remoteLoadOk = false) :
    (mainRun nodeName (pkg :: manager :: rest) env).1 = .exited 4 ∧
    (∀ s b, Event.unloadProbe s b ∉ (mainRun nodeName (pkg :: manager :: rest) env).2) ∧
    (∀ n, Event.unloadRpc n ∉ (mainRun nodeName (pkg :: manager :: rest) env).2) := by
  cases rest with
  | nil => simp [mainRun, loadNodelet, h1, h2]
  | cons a rest1 =>
    by_cases ha : (a == "--no-bond") = true
    · simp [mainRun, loadNodelet, h1, h2, ha]
    · simp only [Bool.not_eq_true] at ha
      simp [mainRun, loadNodelet, h1, h2, ha]

/-- Witness for C5 at a concrete remote launch whose load RPC fails. -/
theorem load_failure_exits_4_without_unload_witness :
    (mainRun "nodeA" ["pkg/Type", "mgr"] envLoadFails).1 = .exited 4 ∧
    Event.unloadRpc "nodeA" ∉ (mainRun "nodeA" ["pkg/Type", "mgr"] envLoadFails).2 := by
  have h := load_failure_exits_4_without_unload "nodeA" "pkg/Type" "mgr" [] envLoadFails
    (by decide) rfl
  exact ⟨h.1, h.2.2 "nodeA"⟩

/-- C6: the load request carries two parallel arrays of the same length as
the remapping sequence, preserving order and positional correspondence;
in particular remappings `[(a,b),(c,d)]` yield sources `[a,c]` and targets
`[b,d]`. -/
theorem load_request_remap_arrays (name type : String) (args : List String)
    (bond_id : String) (remappings : List (String × String)) (a b c d : String) :
    (buildLoadRequest name type args bond_id remappings).remap_source_args
      = remappings.map Prod.fst ∧
    (buildLoadRequest name type args bond_id remappings).remap_target_args
      = remappings.map Prod.snd ∧
    (buildLoadRequest name type args bond_id remappings).remap_source_args.length
      = remappings.length ∧
    (buildLoadRequest name type args bond_id remappings).remap_target_args.length
      = remappings.length ∧
    (∀ i : Nat, (buildLoadRequest name type args bond_id remappings).remap_source_args[i]?
      = remappings[i]?.map Prod.fst) ∧
    (∀ i : Nat, (buildLoadRequest name type args bond_id remappings).remap_target_args[i]?
      = remappings[i]?.map Prod.snd) ∧
    (buildLoadRequest name type args bond_id [(a, b), (c, d)]).remap_source_args = [a, c] ∧
    (buildLoadRequest name type args bond_id [(a, b), (c, d)]).remap_target_args = [b, d] := by
  refine ⟨rfl, rfl, by simp [buildLoadRequest], by simp [buildLoadRequest], ?_, ?_, rfl, rfl⟩
  · intro i
    simp [buildLoadRequest]
  · intro i
    simp [buildLoadRequest]

/-- C8: a launch without a manager address takes the embedded path — the
standalone load under the process's own node name — and never issues a load
RPC, an unload RPC, an unload-service probe, or a wait for the load service. -/
theorem embedded_mode_no_rpc (nodeName pkg : String) (env : Env)
    (h : hasSlash pkg = true) :
    (mainRun nodeName [pkg] env).2.head? = some (.standaloneLoad nodeName pkg) ∧
    (∀ req, Event.loadRpc req ∉ (mainRun nodeName [pkg] env).2) ∧
    (∀ s, Event.waitForService s ∉ (mainRun nodeName [pkg] env).2) ∧
    (∀ s b, Event.unloadProbe s b ∉ (mainRun nodeName [pkg] env).2) ∧
    (∀ n, Event.unloadRpc n ∉ (mainRun nodeName [pkg] env).2) := by
  cases hs : env.standaloneLoadOk <;> simp [mainRun, h, hs]

/-- Witness for C8 at a concrete embedded launch. -/
theorem embedded_mode_no_rpc_witness :
    (mainRun "nodeA" ["pkg/Type"] envAllOk).2.head?
      = some (.standaloneLoad "nodeA" "pkg/Type") ∧
    Event.unloadRpc "nodeA" ∉ (mainRun "nodeA" ["pkg/Type"] envAllOk).2 := by
  have h := embedded_mode_no_rpc "nodeA" "pkg/Type" envAllOk (by decide)
  exact ⟨h.1, h.2.2.2.2 "nodeA"⟩

/-- C7: with `--no-bond` directly after the manager name, `bond.start()` is
never called, the load RPC carries the empty bond id, the bond-broken exit
is impossible, and `bond.isBroken()` is never consulted by the loop. -/
theorem no_bond_first_disables_lease (nodeName pkg manager : String)
    (rest : List String) (env : Env) (h : hasSlash pkg = true) :
    Event.bondStart ∉ (mainRun nodeName (pkg :: manager :: "--no-bond" :: rest) env).2 ∧
    (∀ req, Event.loadRpc req ∈ (mainRun nodeName (pkg :: manager :: "--no-bond" :: rest) env).2 →
      req.bond_id = "") ∧
    Event.logBondBroken ∉ (mainRun nodeName (pkg :: manager :: "--no-bond" :: rest) env).2 ∧
    (monitorLoop false env.obs).2 = 0 ∧
    (monitorLoop false env.obs).1 ≠ .viaBondBroken := by
  have hm := monitorLoop_inactive env.obs
  refine ⟨?_, ?_, ?_, hm.1, hm.2⟩
  all_goals
    cases hl : env.remoteLoadOk with
    | false => simp [mainRun, loadNodelet, buildLoadRequest, h, hl]
    | true =>
      cases hx : (monitorLoop false env.obs).1 with
      | viaBondBroken => exact absurd hx hm.2
      | viaShutdownFlag =>
        cases hb : env.unloadServiceExistsBefore <;>
          cases hc : env.unloadCallOk <;>
            cases hd : env.unloadServiceExistsAfter <;>
              simp [mainRun, loadNodelet, buildLoadRequest, unloadNodelet,
                h, hl, hx, hb, hc, hd]
      | ranOut =>
        simp [mainRun, loadNodelet, buildLoadRequest, h, hl, hx]

/-- Witness for C7 at a concrete launch with the opt-out in first position. -/
theorem no_bond_first_disables_lease_witness :
    Event.bondStart ∉ (mainRun "nodeA" ["pkg/Type", "mgr", "--no-bond"] envAllOk).2 ∧
    (monitorLoop false envAllOk.obs).2 = 0 := by
  have h := no_bond_first_disables_lease "nodeA" "pkg/Type" "mgr" [] envAllOk (by decide)
  exact ⟨h.1, h.2.2.2.1⟩

/-- C10: when `--no-bond` appears after the first post-manager argument it is
not recognized: a bond id is still generated (and nonempty), the bond is
started, and the literal `--no-bond` is forwarded unmodified inside the
`my_argv` extra arguments of the load request. -/
theorem no_bond_later_is_plain_arg (nodeName pkg manager a : String) (rest : List String)
    (env : Env) (h1 : hasSlash pkg = true) (h2 : (a == "--no-bond") = false)
    (h3 : "--no-bond" ∈ rest) (h4 : env.remoteLoadOk = true) :
    Event.loadRpc (buildLoadRequest nodeName pkg (a :: rest)
        (nodeName ++ "_" ++ env.randomHex) env.remappings)
      ∈ (mainRun nodeName (pkg :: manager :: a :: rest) env).2 ∧
    Event.bondStart ∈ (mainRun nodeName (pkg :: manager :: a :: rest) env).2 ∧
    (nodeName ++ "_" ++ env.randomHex) ≠ "" ∧
    "--no-bond" ∈ (buildLoadRequest nodeName pkg (a :: rest)
        (nodeName ++ "_" ++ env.randomHex) env.remappings).my_argv := by
  have h2' : a ≠ "--no-bond" := by simpa using h2
  have hne : (nodeName ++ "_" ++ env.randomHex) ≠ "" := by simp [String.ext_iff]
  have hargv : "--no-bond" ∈ (buildLoadRequest nodeName pkg (a :: rest)
      (nodeName ++ "_" ++ env.randomHex) env.remappings).my_argv := by
    simpa [buildLoadRequest] using List.mem_cons_of_mem a h3
  refine ⟨?_, ?_, hne, hargv⟩ <;>
    cases hx : (monitorLoop true env.obs).1 <;>
      simp [mainRun, loadNodelet, h1, h2, h2', h4, hne,
        generated_bondId_ne_empty, hx]

/-- Witness for C10 at a concrete launch with `--no-bond` in second position. -/
theorem no_bond_later_is_plain_arg_witness :
    Event.bondStart ∈ (mainRun "nodeA" ["pkg/Type", "mgr", "arg1", "--no-bond"] envAllOk).2 ∧
    "--no-bond" ∈ (buildLoadRequest "nodeA" "pkg/Type" ["arg1", "--no-bond"]
        ("nodeA" ++ "_" ++ envAllOk.randomHex) envAllOk.remappings).my_argv := by
  have h := no_bond_later_is_plain_arg "nodeA" "pkg/Type" "mgr" "arg1" ["--no-bond"]
    envAllOk (by decide) (by decide) (by decide) rfl
  exact ⟨h.2.1, h.2.2.2⟩

/-- Any occurrence of the unload operation (probe or RPC) in an event list. -/
def hasUnloadAttempt (evs : List Event) : Bool :=
  evs.any isUnloadAttempt

/-- C1 counterexample: with the bond established and then reporting broken on
the first monitoring iteration, the run exits 0 via `goto shutdown` and its
full event trace contains no unload-service probe and no unload RPC — the
unload is skipped, not attempted. -/
theorem bond_broken_skips_unload_cex :
    (mainRun "nodeA" ["pkg/Type", "mgr"] envBondBroken).1 = .exited 0 ∧
    (mainRun "nodeA" ["pkg/Type", "mgr"] envBondBroken).2 =
      [.paramCopy "nodeA" "nodeA", .waitForService "mgr/load_nodelet",
       .loadRpc ⟨"nodeA", "pkg/Type", [], [], [], "nodeA_abcd"⟩,
       .bondStart, .logBondBroken, .rosShutdown] ∧
    hasUnloadAttempt (mainRun "nodeA" ["pkg/Type", "mgr"] envBondBroken).2 = false :=
  ⟨rfl, rfl, rfl⟩

/-- C1 amended: when the established bond reports broken during the
monitoring loop, the supervisor leaves the loop through the bond-broken
branch and proceeds directly to `ros::shutdown()` and exit code 0, skipping
the unload RPC entirely and not explicitly breaking the bond. -/
theorem bond_broken_exits_without_unload (nodeName pkg manager : String) (env : Env)
    (h1 : hasSlash pkg = true) (h2 : env.remoteLoadOk = true)
    (h3 : (monitorLoop true env.obs).1 = .viaBondBroken) :
    (mainRun nodeName [pkg, manager] env).1 = .exited 0 ∧
    Event.logBondBroken ∈ (mainRun nodeName [pkg, manager] env).2 ∧
    hasUnloadAttempt (mainRun nodeName [pkg, manager] env).2 = false ∧
    Event.bondBreak ∉ (mainRun nodeName [pkg, manager] env).2 := by
  simp [mainRun, loadNodelet, hasUnloadAttempt, isUnloadAttempt, h1, h2,
    generated_bondId_ne_empty, h3]

/-- Witness for the amended C1 at a concrete run whose bond breaks first. -/
theorem bond_broken_exits_without_unload_witness :
    (mainRun "nodeA" ["pkg/Type", "mgr"] envBondBroken).1 = .exited 0 ∧
    hasUnloadAttempt (mainRun "nodeA" ["pkg/Type", "mgr"] envBondBroken).2 = false := by
  have h := bond_broken_exits_without_unload "nodeA" "pkg/Type" "mgr" envBondBroken
    (by decide) rfl (by decide)
  exact ⟨h.1, h.2.2.1⟩

/-- C2 counterexample: when the unload service is not advertised the call
returns `false` — the very same value as a real failure — while a successful
unload returns `true`; the absent-service outcome is not success-equivalent. -/
theorem unload_absent_returns_failure_cex :
    (unloadNodelet "nodeA" "mgr" envUnloadAbsent).1 = false ∧
    (unloadNodelet "nodeA" "mgr" envAllOk).1 = true :=
  ⟨rfl, rfl⟩

/-- C2 amended: the unload operation distinguishes its cases only through
logging, returning `false` in all three failure situations: absent service ⇒
warning log, `false`; failed call with the service since vanished ⇒ no
severe log, `false`; failed call with the service still advertised ⇒
fatal-severity log, `false`; successful call ⇒ `true`. None of them is fatal
to the shutdown sequence: the caller ignores the result and the process still
exits with code 0. -/
theorem unload_outcome_classification (name manager : String) (env : Env) :
    (env.unloadServiceExistsBefore = false →
      unloadNodelet name manager env =
        (false, [.unloadProbe (manager ++ "/unload_nodelet") true,
                 .logWarnNoUnloadService (manager ++ "/unload_nodelet")])) ∧
    (env.unloadServiceExistsBefore = true → env.unloadCallOk = false →
      env.unloadServiceExistsAfter = false →
      unloadNodelet name manager env =
        (false, [.unloadProbe (manager ++ "/unload_nodelet") true, .unloadRpc name,
                 .unloadProbe (manager ++ "/unload_nodelet") false])) ∧
    (env.unloadServiceExistsBefore = true → env.unloadCallOk = false →
      env.unloadServiceExistsAfter = true →
      unloadNodelet name manager env =
        (false, [.unloadProbe (manager ++ "/unload_nodelet") true, .unloadRpc name,
                 .unloadProbe (manager ++ "/unload_nodelet") false,
                 .logFatalUnloadFailed name])) ∧
    (env.unloadServiceExistsBefore = true → env.unloadCallOk = true →
      unloadNodelet name manager env =
        (true, [.unloadProbe (manager ++ "/unload_nodelet") true, .unloadRpc name])) ∧
    (∀ pkg, hasSlash pkg = true → env.remoteLoadOk = true →
      (monitorLoop true env.obs).1 = .viaShutdownFlag →
      (mainRun name [pkg, manager] env).1 = .exited 0) := by
  refine ⟨?_, ?_, ?_, ?_, ?_⟩
  · intro hb
    simp [unloadNodelet, hb]
  · intro hb hc hd
    simp [unloadNodelet, hb, hc, hd]
  · intro hb hc hd
    simp [unloadNodelet, hb, hc, hd]
  · intro hb hc
    simp [unloadNodelet, hb, hc]
  · intro pkg h1 h2 h3
    simp [mainRun, loadNodelet, h1, h2, generated_bondId_ne_empty, h3]

/-- Witness for the amended C2: a concrete run whose unload service is
absent still exits with code 0, and the unload call returned `false` with a
warning. -/
theorem unload_outcome_classification_witness :
    unloadNodelet "nodeA" "mgr" envUnloadAbsent =
      (false, [.unloadProbe ("mgr" ++ "/unload_nodelet") true,
               .logWarnNoUnloadService ("mgr" ++ "/unload_nodelet")]) ∧
    (mainRun "nodeA" ["pkg/Type", "mgr"] envUnloadAbsent).1 = .exited 0 := by
  have h := unload_outcome_classification "nodeA" "mgr" envUnloadAbsent
  exact ⟨h.1 rfl, h.2.2.2.2 "pkg/Type" (by decide) rfl (by decide)⟩

/-- C3: every inbound shutdown control request is answered with the
well-formed acknowledgement `responseInt(1, "", 0)`, whether or not it
triggers the latch; when parameter index 1 is present (the params are an
array of more than one element) the latch is set and the reason at index 1
is logged; otherwise the latch state is left untouched. -/
theorem shutdown_request_handling (params : XmlRpcValue) (s : LatchState) :
    (shutdownCallback params s).2 = responseInt 1 "" 0 ∧
    (∀ es, params = XmlRpcValue.array es → 1 < es.length →
      (shutdownCallback params s).1.requestShutdown = true ∧
      (shutdownCallback params s).1.warnLog
        = s.warnLog ++ [(es.getD 1 XmlRpcValue.other).asString]) ∧
    (numParams params ≤ 1 → (shutdownCallback params s).1 = s) := by
  refine ⟨rfl, ?_, ?_⟩
  · rintro es rfl hlen
    constructor <;> simp [shutdownCallback, numParams, hlen]
  · intro hle
    have hlt : ¬ 1 < numParams params := by omega
    simp [shutdownCallback, hlt]

/-- Witness for C3 at a concrete shutdown request carrying a reason. -/
theorem shutdown_request_handling_witness :
    (shutdownCallback (XmlRpcValue.array [XmlRpcValue.str "caller",
        XmlRpcValue.str "operator asked"]) ⟨false, []⟩).2 = responseInt 1 "" 0 ∧
    (shutdownCallback (XmlRpcValue.array [XmlRpcValue.str "caller",
        XmlRpcValue.str "operator asked"]) ⟨false, []⟩).1.requestShutdown = true := by
  have h := shutdown_request_handling (XmlRpcValue.array [XmlRpcValue.str "caller",
    XmlRpcValue.str "operator asked"]) ⟨false, []⟩
  exact ⟨h.1, (h.2.1 _ rfl (by decide)).1⟩

/-- C9 counterexample: two remote shutdown requests with different reasons,
applied to the fresh latch, do not leave the state a single request leaves —
the second request's reason is recorded (logged) too, so repeated triggers
are not ignored and the recorded reasons are not only the first one's. -/
theorem latch_second_reason_recorded_cex :
    (shutdownCallback (XmlRpcValue.array [XmlRpcValue.str "caller", XmlRpcValue.str "reasonB"])
        (shutdownCallback (XmlRpcValue.array [XmlRpcValue.str "caller",
          XmlRpcValue.str "reasonA"]) ⟨false, []⟩).1).1.warnLog = ["reasonA", "reasonB"] ∧
    (shutdownCallback (XmlRpcValue.array [XmlRpcValue.str "caller", XmlRpcValue.str "reasonB"])
        (shutdownCallback (XmlRpcValue.array [XmlRpcValue.str "caller",
          XmlRpcValue.str "reasonA"]) ⟨false, []⟩).1).1
      ≠ (shutdownCallback (XmlRpcValue.array [XmlRpcValue.str "caller",
          XmlRpcValue.str "reasonA"]) ⟨false, []⟩).1 := by
  refine ⟨rfl, ?_⟩
  decide

/-- C9 amended: the latch flag is idempotent — after a trigger that fires,
any further trigger leaves `requestShutdown` unchanged (it is simply written
to 1 again or not at all) — but the latch stores no reason: each remote
trigger carrying a reason appends it to the warning log, also when it is not
the first trigger. -/
theorem latch_flag_idempotent (s : LatchState) (t1 t2 : Trigger)
    (h : fires t1 = true) :
    (fire t1 s).requestShutdown = true ∧
    (fire t2 (fire t1 s)).requestShutdown = (fire t1 s).requestShutdown ∧
    (∀ es, t2 = Trigger.remote (XmlRpcValue.array es) → 1 < es.length →
      (fire t2 (fire t1 s)).warnLog
        = (fire t1 s).warnLog ++ [(es.getD 1 XmlRpcValue.other).asString]) := by
  have hflag : (fire t1 s).requestShutdown = true := by
    cases t1 with
    | sigint => rfl
    | remote p =>
      have hp : 1 < numParams p := by simpa [fires] using h
      simp [fire, shutdownCallback, hp]
  refine ⟨hflag, ?_, ?_⟩
  · have key : ∀ x : LatchState, x.requestShutdown = true →
        (fire t2 x).requestShutdown = x.requestShutdown := by
      intro x hx
      cases t2 with
      | sigint => simp [fire, nodeletLoaderSigIntHandler, hx]
      | remote q =>
        by_cases hq : 1 < numParams q
        · simp [fire, shutdownCallback, hq, hx]
        · simp [fire, shutdownCallback, hq]
    exact key _ hflag
  · rintro es rfl hlen
    generalize fire t1 s = x
    simp [fire, shutdownCallback, numParams, hlen]

/-- Witness for the amended C9: SIGINT followed by a remote request leaves
the flag unchanged, and the remote request's reason is still logged. -/
theorem latch_flag_idempotent_witness :
    (fire (Trigger.remote (XmlRpcValue.array [XmlRpcValue.str "caller",
        XmlRpcValue.str "late reason"])) (fire Trigger.sigint ⟨false, []⟩)).requestShutdown
      = (fire Trigger.sigint ⟨false, []⟩).requestShutdown ∧
    (fire (Trigger.remote (XmlRpcValue.array [XmlRpcValue.str "caller",
        XmlRpcValue.str "late reason"])) (fire Trigger.sigint ⟨false, []⟩)).warnLog
      = (fire Trigger.sigint (⟨false, []⟩ : LatchState)).warnLog ++ ["late reason"] := by
  have h := latch_flag_idempotent ⟨false, []⟩ Trigger.sigint
    (Trigger.remote (XmlRpcValue.array [XmlRpcValue.str "caller",
      XmlRpcValue.str "late reason"])) rfl
  exact ⟨h.2.1, h.2.2 _ rfl (by decide)⟩

end NodeletOrNode
